import Mathlib

/-!
Verification of the connection-admission core of an SNI passthrough proxy
(`src/tcp/tls.rs`).  The admission flow `handle_stream` is embedded as a pure
function from an environment (the results every external collaborator and
every fallible I/O operation would return on this connection) to a trace of
the observable effects: alert sends, resolver calls, published hostname,
redirect invocations, connect attempts, bytes written to the backend socket,
final socket timeout state, and the value returned to the caller.
-/

namespace Sniproxy

abbrev Bytes := List Nat

/-- Decimal rendering of a natural number, as Rust's `Display` for integers. -/
def natToDecimal (n : Nat) : String :=
  String.mk (Nat.toDigits 10 n)

/-- Lowercase hexadecimal rendering, as Rust's `LowerHex`. -/
def natToHex (n : Nat) : String :=
  String.mk (Nat.toDigits 16 n)

/-- An IPv4 address as four octets. -/
structure Ipv4Addr where
  a : Nat
  b : Nat
  c : Nat
  d : Nat
deriving DecidableEq, Repr

/-- Dotted-decimal form, Rust's `Display for Ipv4Addr`. -/
def Ipv4Addr.toString (ip : Ipv4Addr) : String :=
  natToDecimal ip.a ++ "." ++ natToDecimal ip.b ++ "." ++
  natToDecimal ip.c ++ "." ++ natToDecimal ip.d

/-- An IPv6 address as eight 16-bit segments. -/
structure Ipv6Addr where
  s0 : Nat
  s1 : Nat
  s2 : Nat
  s3 : Nat
  s4 : Nat
  s5 : Nat
  s6 : Nat
  s7 : Nat
deriving DecidableEq, Repr

def Ipv6Addr.segments (ip : Ipv6Addr) : List Nat :=
  [ip.s0, ip.s1, ip.s2, ip.s3, ip.s4, ip.s5, ip.s6, ip.s7]

/-- Rust's `Ipv6Addr::to_ipv4`: converts IPv4-mapped (`::ffff:a.b.c.d`) and
IPv4-compatible (`::a.b.c.d`) addresses. -/
def Ipv6Addr.to_ipv4 (ip : Ipv6Addr) : Option Ipv4Addr :=
  if ip.s0 = 0 ∧ ip.s1 = 0 ∧ ip.s2 = 0 ∧ ip.s3 = 0 ∧ ip.s4 = 0 ∧
     (ip.s5 = 0 ∨ ip.s5 = 0xffff) then
    some ⟨ip.s6 / 256, ip.s6 % 256, ip.s7 / 256, ip.s7 % 256⟩
  else
    none

/-- Longest run of zero segments (start, length); on equal length the first
run wins, as in the Rust `Display for Ipv6Addr` loop. -/
def zeroRunAux : List Nat → Nat → Nat × Nat → Nat × Nat → Nat × Nat
  | [], _, _, best => best
  | seg :: rest, i, (curStart, curLen), (bestStart, bestLen) =>
    if seg = 0 then
      let curStart' := if curLen = 0 then i else curStart
      let curLen' := curLen + 1
      let best' := if curLen' > bestLen then (curStart', curLen') else (bestStart, bestLen)
      zeroRunAux rest (i + 1) (curStart', curLen') best'
    else
      zeroRunAux rest (i + 1) (0, 0) (bestStart, bestLen)

def fmtHexSubslice (segs : List Nat) : String :=
  String.intercalate ":" (segs.map natToHex)

/-- Rust's `Display for Ipv6Addr`: special cases for the unspecified and
loopback addresses and for `to_ipv4`-convertible addresses, otherwise the
longest run of at least two zero segments is compressed to `::`. -/
def Ipv6Addr.toString (ip : Ipv6Addr) : String :=
  let segs := ip.segments
  if segs = [0, 0, 0, 0, 0, 0, 0, 0] then "::"
  else if segs = [0, 0, 0, 0, 0, 0, 0, 1] then "::1"
  else
    match ip.to_ipv4 with
    | some ipv4 => if ip.s5 = 0 then "::" ++ ipv4.toString else "::ffff:" ++ ipv4.toString
    | none =>
      let run := zeroRunAux segs 0 (0, 0) (0, 0)
      if run.2 > 1 then
        fmtHexSubslice (segs.take run.1) ++ "::" ++ fmtHexSubslice (segs.drop (run.1 + run.2))
      else
        fmtHexSubslice segs

/-- Rust's `SocketAddr`: an IP address and a port. -/
inductive SocketAddr where
  | V4 : Ipv4Addr → Nat → SocketAddr
  | V6 : Ipv6Addr → Nat → SocketAddr
deriving DecidableEq, Repr

def SocketAddr.toString : SocketAddr → String
  | .V4 ip port => ip.toString ++ ":" ++ natToDecimal port
  | .V6 ip port => "[" ++ ip.toString ++ "]:" ++ natToDecimal port

/-- `extract_ip_string` from `src/tcp/tls.rs`: the textual IP of a socket
address, with `to_ipv4`-convertible IPv6 addresses rendered as plain IPv4. -/
def extract_ip_string : SocketAddr → String
  | .V6 v6 _ =>
    match v6.to_ipv4 with
    | some ipv4 => ipv4.toString
    | none => v6.toString
  | .V4 v4 _ => v4.toString

example : extract_ip_string (.V4 ⟨203, 0, 113, 5⟩ 443) = "203.0.113.5" := by decide

example : extract_ip_string (.V6 ⟨0, 0, 0, 0, 0, 0xffff, 0xcb00, 0x7105⟩ 443)
    = "203.0.113.5" := by decide

example : extract_ip_string (.V6 ⟨0x2001, 0xdb8, 0, 0, 0, 0, 0, 1⟩ 443)
    = "2001:db8::1" := by decide

/-- An error value: either an error produced by the environment (I/O, context,
collaborators) or a `bail!` message built by the admission flow. -/
inductive Err where
  | sysErr : String → Err
  | fail : String → Err
deriving DecidableEq, Repr

/-- Rendering used when an error is interpolated into a `bail!` message. -/
def Err.str : Err → String
  | .sysErr s => s
  | .fail s => s

/-- The parsed `Tls` value: the optional SNI hostname and the ALPN-challenge
flag, the only parts of it `handle_stream` consumes. -/
structure Tls where
  hostname : Option String
  is_challenge : Bool
deriving DecidableEq, Repr

/-- `config::Error`: the closed set of classified routing failures matched in
`handle_stream` (the match has exactly these three arms and no wildcard). -/
inductive ConfigError where
  | HostnameNotFound
  | NoBackend
  | AccessDenied
deriving DecidableEq, Repr

/-- The error of `config.get_backend`: an `anyhow` error that either
downcasts to a `config::Error` or does not. -/
inductive ResolveErr where
  | config : ConfigError → ResolveErr
  | other : Err → ResolveErr
deriving DecidableEq, Repr

/-- A resolved backend descriptor: its configured address string (used in
error messages), the result of `to_socket_addr()` (name resolution may fail),
and the optional proxy-protocol version to emit. -/
structure Backend where
  address : String
  to_socket_addr : Except Err SocketAddr
  proxy_protocol : Option Nat
deriving Repr

/-- TLS alert descriptions selected by the admission flow. -/
inductive AlertDescription where
  | InternalError
  | UnrecognizedName
  | AccessDenied
deriving DecidableEq, Repr

/-- Which socket an alert send targets. -/
inductive Target where
  | client
  | backend
deriving DecidableEq, Repr

/-- The environment of one connection: the bytes captured in the peek buffer
and the result every fallible collaborator call would return.  Each oracle is
consulted at most once per run (`local_addr`/`peer_addr` are connection
context, deterministic within a connection). -/
structure Env where
  /-- Result of `Tls::from(&mut rb)`; the error case carries the message
  interpolated into "Could not parse TLS message: {e}". -/
  parse : Except String Tls
  /-- `rb.buf()`: the bytes captured in the peek buffer. -/
  buf : Bytes
  /-- `http::is_http(&rb)`. -/
  is_http : Bool
  /-- Result of `http::try_redirect(&config, peer, &mut rb)`. -/
  redirect_result : Except Err Unit
  /-- Result of `context::peer_addr()`. -/
  peer_addr : Except Err SocketAddr
  /-- Result of `context::local_addr()`. -/
  local_addr : Except Err SocketAddr
  /-- Result of `context::set_hostname(hostname)`. -/
  set_hostname_result : Except Err Unit
  /-- Result of `config.get_backend(hostname, peer, is_challenge)`. -/
  resolve : Except ResolveErr Backend
  /-- Result of `TcpStream::connect_timeout(..)`. -/
  connect_result : Except Err Unit
  /-- Result of the single `tls::alert` attempt a run can make. -/
  alert_result : Except Err Unit
  /-- `proxy_protocol::write_header(&mut bw, version, local, peer)`: the
  header bytes the collaborator buffers, or its failure. -/
  header_fn : Nat → SocketAddr → SocketAddr → Except Err Bytes
  /-- Result of `bw.write_all(rb.buf())`. -/
  write_all_result : Except Err Unit
  /-- Result of `bw.into_inner()` (the final flush). -/
  into_inner_result : Except Err Unit
  /-- Result of `conn.set_read_timeout(None)` on the backend socket. -/
  set_read_timeout_result : Except Err Unit
  /-- Result of `conn.set_write_timeout(None)` on the backend socket. -/
  set_write_timeout_result : Except Err Unit
  /-- Result of `super::tcp::proxy(..)`. -/
  proxy_result : Except Err Unit
  /-- Read timeout configured on the client socket when it reaches
  `handle_stream` (set or not by the out-of-scope accept loop). -/
  client_read_timeout : Option Nat
  /-- Write timeout configured on the client socket at entry. -/
  client_write_timeout : Option Nat
  /-- Read timeout on the backend socket as freshly connected. -/
  backend_init_read : Option Nat
  /-- Write timeout on the backend socket as freshly connected. -/
  backend_init_write : Option Nat

/-- The observable behaviour of one run of `handle_stream`. -/
structure Trace where
  /-- Alert sends attempted, in order: (target socket, description). -/
  alerts : List (Target × AlertDescription) := []
  /-- Calls to `config.get_backend`: (hostname, peer, is_challenge). -/
  resolver_calls : List (String × SocketAddr × Bool) := []
  /-- Arguments of `context::set_hostname` calls. -/
  published : List String := []
  /-- Calls to `http::try_redirect`: (peer address, buffered bytes). -/
  redirects : List (SocketAddr × Bytes) := []
  /-- Connect attempts: (backend socket address, timeout in seconds). -/
  connects : List (SocketAddr × Nat) := []
  /-- Bytes flushed to the backend socket by the admission flow. -/
  backend_bytes : Bytes := []
  /-- (read, write) timeouts of the backend socket, once one exists. -/
  backend_timeouts : Option (Option Nat × Option Nat) := none
  /-- (read, write) timeouts of the client socket at the end of the run. -/
  client_timeouts : Option Nat × Option Nat
  /-- Whether the forwarder `super::tcp::proxy` was invoked. -/
  forwarder_called : Bool := false
  /-- The value `handle_stream` returns to its caller. -/
  result : Except Err Unit := .ok ()
deriving Repr

/-- The proxy-protocol step of the handoff: the header bytes buffered before
the replay — the collaborator's output when a version is configured, nothing
otherwise. -/
def headerResult (env : Env) (b : Backend) (la peer : SocketAddr) : Except Err Bytes :=
  match b.proxy_protocol with
  | some version => env.header_fn version la peer
  | none => .ok []

/-- Shallow embedding of `handle_stream` from `src/tcp/tls.rs`: the same
decision sequence, with each fallible call read from the environment and each
effect recorded in the trace.  A buffered writer wraps the backend socket, so
the socket receives bytes only at the `into_inner` flush. -/
def handle_stream (env : Env) : Trace :=
  let t0 : Trace := { client_timeouts := (env.client_read_timeout, env.client_write_timeout) }
  match env.parse with
  | .error e =>
    -- If this looks like an HTTP request, try to redirect it.
    if env.is_http then
      match env.peer_addr with
      | .error pe => { t0 with result := .error pe }
      | .ok peer =>
        { t0 with redirects := [(peer, env.buf)], result := env.redirect_result }
    else
      { t0 with
        alerts := [(.client, .InternalError)]
        result :=
          match env.alert_result with
          | .error ae => .error ae
          | .ok _ => .error (.fail ("Could not parse TLS message: " ++ e)) }
  | .ok tls =>
    match env.local_addr with
    | .error le => { t0 with result := .error le }
    | .ok la =>
      let local_ip := extract_ip_string la
      let hostname :=
        match tls.hostname with
        | some name => name
        | none => local_ip
      let t1 := { t0 with published := [hostname] }
      match env.set_hostname_result with
      | .error se => { t1 with result := .error se }
      | .ok _ =>
      match env.peer_addr with
      | .error pe => { t1 with result := .error pe }
      | .ok peer =>
      let t2 := { t1 with resolver_calls := [(hostname, peer, tls.is_challenge)] }
      match env.resolve with
      | .error (.config .HostnameNotFound) =>
        { t2 with
          alerts := [(.client, .UnrecognizedName)]
          result :=
            match env.alert_result with
            | .error ae => .error ae
            | .ok _ => .error (.fail ("No route found for '" ++ hostname ++ "'")) }
      | .error (.config .NoBackend) =>
        { t2 with
          alerts := [(.client, .AccessDenied)]
          result :=
            match env.alert_result with
            | .error ae => .error ae
            | .ok _ => .error (.fail ("No backend defined for '" ++ hostname ++ "'")) }
      | .error (.config .AccessDenied) =>
        { t2 with
          alerts := [(.client, .AccessDenied)]
          result :=
            match env.alert_result with
            | .error ae => .error ae
            | .ok _ => .error (.fail ("Request from " ++ peer.toString ++ " for '" ++
                hostname ++ "' was denied by ACLs")) }
      | .error (.other e) => { t2 with result := .error e }
      | .ok backend =>
      match backend.to_socket_addr with
      | .error te => { t2 with result := .error te }
      | .ok baddr =>
      let t3 := { t2 with connects := [(baddr, 3)] }
      match env.connect_result with
      | .error ce =>
        { t3 with
          alerts := [(.client, .InternalError)]
          result :=
            match env.alert_result with
            | .error ae => .error ae
            | .ok _ => .error (.fail ("Could not connect to backend '" ++
                backend.address ++ "': " ++ ce.str)) }
      | .ok _ =>
      let t4 := { t3 with backend_timeouts := some (env.backend_init_read, env.backend_init_write) }
      -- Send an HAProxy protocol header if needed, into the buffered writer.
      match headerResult env backend la peer with
      | .error he => { t4 with result := .error he }
      | .ok hbytes =>
      -- Replay the handshake into the buffered writer.
      match env.write_all_result with
      | .error we => { t4 with result := .error we }
      | .ok _ =>
      -- Flush the buffered writer and recover the raw backend socket.
      match env.into_inner_result with
      | .error ie => { t4 with result := .error ie }
      | .ok _ =>
      let t5 := { t4 with backend_bytes := hbytes ++ env.buf }
      -- Do not use read & write timeouts for proxying.
      match env.set_read_timeout_result with
      | .error e =>
        { t5 with
          alerts := [(.backend, .InternalError)]
          result :=
            match env.alert_result with
            | .error ae => .error ae
            | .ok _ => .error (.fail ("Could not unset the read timeout on TCP stream: " ++
                e.str)) }
      | .ok _ =>
      let t6 := { t5 with backend_timeouts := some (none, env.backend_init_write) }
      match env.set_write_timeout_result with
      | .error e =>
        { t6 with
          alerts := [(.backend, .InternalError)]
          result :=
            match env.alert_result with
            | .error ae => .error ae
            | .ok _ => .error (.fail ("Could not unset the write timeout on TCP stream: " ++
                e.str)) }
      | .ok _ =>
      { t6 with
        backend_timeouts := some (none, none)
        forwarder_called := true
        result := env.proxy_result }

deriving instance DecidableEq for Except

/-- A resolved backend with no proxy protocol, used to instantiate theorems. -/
def backendPlain : Backend :=
  { address := "10.0.0.2:8443"
    to_socket_addr := .ok (.V4 ⟨10, 0, 0, 2⟩ 8443)
    proxy_protocol := none }

/-- A fully successful environment: a ClientHello with SNI, a resolvable
backend, and every collaborator call succeeding. -/
def envOk : Env :=
  { parse := .ok { hostname := some "a.example.com", is_challenge := false }
    buf := [22, 3, 1, 0, 5]
    is_http := false
    redirect_result := .ok ()
    peer_addr := .ok (.V4 ⟨198, 51, 100, 7⟩ 55123)
    local_addr := .ok (.V4 ⟨203, 0, 113, 5⟩ 443)
    set_hostname_result := .ok ()
    resolve := .ok backendPlain
    connect_result := .ok ()
    alert_result := .ok ()
    header_fn := fun _ _ _ => .ok [13, 10, 0, 13, 10]
    write_all_result := .ok ()
    into_inner_result := .ok ()
    set_read_timeout_result := .ok ()
    set_write_timeout_result := .ok ()
    proxy_result := .ok ()
    client_read_timeout := none
    client_write_timeout := none
    backend_init_read := some 10
    backend_init_write := some 10 }

/-- Once routing is reached (parse, local address, hostname publication and
peer lookup all succeeded), the hostname published and the single resolver
call are fixed, whatever happens later. -/
theorem routing_trace_fields (env : Env) (tls : Tls) (la peer : SocketAddr)
    (hp : env.parse = .ok tls) (hl : env.local_addr = .ok la)
    (hsh : env.set_hostname_result = .ok ()) (hpe : env.peer_addr = .ok peer) :
    (handle_stream env).published =
      [match tls.hostname with
       | some name => name
       | none => extract_ip_string la] ∧
    (handle_stream env).resolver_calls =
      [(match tls.hostname with
        | some name => name
        | none => extract_ip_string la, peer, tls.is_challenge)] := by
  simp only [handle_stream, hp, hl, hsh, hpe]
  constructor <;> (repeat' split) <;> (try simp_all)

/-- C10: once the message parses as TLS, the local address is queried before
the SNI hostname is used: if `context::local_addr()` fails the connection is
aborted with that error — no alert is sent, no hostname is published and the
backend resolver is never invoked, even when the ClientHello carries a usable
SNI hostname. -/
theorem local_addr_failure_aborts_silently (env : Env) (tls : Tls) (le : Err)
    (hp : env.parse = .ok tls) (hl : env.local_addr = .error le) :
    (handle_stream env).result = .error le ∧
    (handle_stream env).alerts = [] ∧
    (handle_stream env).published = [] ∧
    (handle_stream env).resolver_calls = [] ∧
    (handle_stream env).forwarder_called = false := by
  simp [handle_stream, hp, hl]

def envLocalFail : Env :=
  { envOk with local_addr := .error (.sysErr "no local addr") }

/-- C10 witness: concrete run with a usable SNI hostname but a failing
local-address lookup — aborted silently. -/
theorem local_addr_failure_aborts_silently_witness :
    (handle_stream envLocalFail).result = .error (.sysErr "no local addr") ∧
    (handle_stream envLocalFail).alerts = [] ∧
    (handle_stream envLocalFail).published = [] ∧
    (handle_stream envLocalFail).resolver_calls = [] ∧
    (handle_stream envLocalFail).forwarder_called = false :=
  local_addr_failure_aborts_silently envLocalFail
    { hostname := some "a.example.com", is_challenge := false }
    (.sysErr "no local addr") rfl rfl

/-- Environment of a connection classified as LooksLikeHttp. -/
def envHttp : Env :=
  { envOk with
    parse := .error "not a tls record"
    is_http := true
    buf := [71, 69, 84, 32, 47] }

def envHttpPeerFail : Env :=
  { envHttp with peer_addr := .error (.sysErr "peer addr unavailable") }

/-- C7 counterexample: a connection classified as LooksLikeHttp on which the
peer-address lookup fails.  The redirect collaborator is never invoked, so
the claim's "the HTTP redirect collaborator is invoked" part is false (the
no-alert and no-resolver parts do hold, and the outcome is the lookup
error). -/
theorem http_redirect_not_invoked_cex :
    envHttpPeerFail.parse = .error "not a tls record" ∧
    envHttpPeerFail.is_http = true ∧
    (handle_stream envHttpPeerFail).redirects = [] ∧
    (handle_stream envHttpPeerFail).alerts = [] ∧
    (handle_stream envHttpPeerFail).resolver_calls = [] ∧
    (handle_stream envHttpPeerFail).result = .error (.sysErr "peer addr unavailable") :=
  ⟨rfl, rfl, rfl, rfl, rfl, rfl⟩

/-- C7 amended: on a LooksLikeHttp connection no alert is ever sent and the
resolver is never invoked; when the peer-address lookup succeeds the redirect
collaborator is invoked with the full buffered bytes and the peer address and
its result becomes the outcome, while a failing lookup aborts with that
error without invoking it. -/
theorem http_fallback_behavior (env : Env) (e : String)
    (hp : env.parse = .error e) (hh : env.is_http = true) :
    (handle_stream env).alerts = [] ∧
    (handle_stream env).resolver_calls = [] ∧
    (∀ pe, env.peer_addr = .error pe →
      (handle_stream env).redirects = [] ∧ (handle_stream env).result = .error pe) ∧
    (∀ peer, env.peer_addr = .ok peer →
      (handle_stream env).redirects = [(peer, env.buf)] ∧
      (handle_stream env).result = env.redirect_result) := by
  cases hpa : env.peer_addr with
  | error pe => simp [handle_stream, hp, hh, hpa]
  | ok peer => simp [handle_stream, hp, hh, hpa]

/-- C7 witness: concrete LooksLikeHttp run ("GET /" prefix) with a working
peer lookup — redirect invoked with the buffered bytes, its result is the
outcome, no alert, no resolver call. -/
theorem http_fallback_behavior_witness :
    (handle_stream envHttp).alerts = [] ∧
    (handle_stream envHttp).resolver_calls = [] ∧
    (handle_stream envHttp).redirects =
      [(.V4 ⟨198, 51, 100, 7⟩ 55123, [71, 69, 84, 32, 47])] ∧
    (handle_stream envHttp).result = .ok () :=
  ⟨(http_fallback_behavior envHttp "not a tls record" rfl rfl).1,
   (http_fallback_behavior envHttp "not a tls record" rfl rfl).2.1,
   ((http_fallback_behavior envHttp "not a tls record" rfl rfl).2.2.2
      (.V4 ⟨198, 51, 100, 7⟩ 55123) rfl).1,
   (((http_fallback_behavior envHttp "not a tls record" rfl rfl).2.2.2
      (.V4 ⟨198, 51, 100, 7⟩ 55123) rfl).2).trans rfl⟩

def envResolveOther : Env :=
  { envOk with resolve := .error (.other (.sysErr "resolver exploded")) }

/-- C2 counterexample: a resolver error that does not downcast to a
`config::Error` (the spec's "Other"/unmatched case) sends no alert at all —
in particular no InternalError — and propagates the error unchanged. -/
theorem routing_other_error_no_alert_cex :
    envResolveOther.resolve = .error (.other (.sysErr "resolver exploded")) ∧
    (handle_stream envResolveOther).alerts = [] ∧
    (handle_stream envResolveOther).result = .error (.sysErr "resolver exploded") :=
  ⟨rfl, rfl, rfl⟩

/-- C2 amended: HostnameNotFound sends UnrecognizedName, NoBackend sends
AccessDenied, AccessDenied sends AccessDenied; any other resolver error sends
no alert and aborts with the error propagated unchanged. -/
theorem routing_alert_table_amended (env : Env) (tls : Tls) (la peer : SocketAddr)
    (hp : env.parse = .ok tls) (hl : env.local_addr = .ok la)
    (hsh : env.set_hostname_result = .ok ()) (hpe : env.peer_addr = .ok peer) :
    (env.resolve = .error (.config .HostnameNotFound) →
      (handle_stream env).alerts = [(.client, .UnrecognizedName)] ∧
      (handle_stream env).forwarder_called = false) ∧
    (env.resolve = .error (.config .NoBackend) →
      (handle_stream env).alerts = [(.client, .AccessDenied)] ∧
      (handle_stream env).forwarder_called = false) ∧
    (env.resolve = .error (.config .AccessDenied) →
      (handle_stream env).alerts = [(.client, .AccessDenied)] ∧
      (handle_stream env).forwarder_called = false) ∧
    (∀ e, env.resolve = .error (.other e) →
      (handle_stream env).alerts = [] ∧
      (handle_stream env).result = .error e ∧
      (handle_stream env).forwarder_called = false) := by
  refine ⟨fun h => ?_, fun h => ?_, fun h => ?_, fun e h => ?_⟩ <;>
    simp [handle_stream, hp, hl, hsh, hpe, h]

def envNoRoute : Env :=
  { envOk with resolve := .error (.config .HostnameNotFound) }

/-- C2 witness: concrete run in which the resolver reports HostnameNotFound —
the single alert attempted is UnrecognizedName on the client socket. -/
theorem routing_alert_table_amended_witness :
    (handle_stream envNoRoute).alerts = [(.client, .UnrecognizedName)] ∧
    (handle_stream envNoRoute).forwarder_called = false :=
  (routing_alert_table_amended envNoRoute
    { hostname := some "a.example.com", is_challenge := false }
    (.V4 ⟨203, 0, 113, 5⟩ 443) (.V4 ⟨198, 51, 100, 7⟩ 55123)
    rfl rfl rfl rfl).1 rfl

/-- C6: when a ClientHello parses and the local address is known, the routing
key published to the context and passed to the backend resolver is the SNI
hostname verbatim when present (and non-empty), and the textual local IP
otherwise; an IPv4-mapped IPv6 local address renders as plain IPv4 text. -/
theorem routing_key_selection (env : Env) (tls : Tls) (la peer : SocketAddr)
    (hp : env.parse = .ok tls) (hl : env.local_addr = .ok la)
    (hsh : env.set_hostname_result = .ok ()) (hpe : env.peer_addr = .ok peer) :
    (∀ name, tls.hostname = some name → name ≠ "" →
      (handle_stream env).published = [name] ∧
      (handle_stream env).resolver_calls = [(name, peer, tls.is_challenge)]) ∧
    (tls.hostname = none →
      (handle_stream env).published = [extract_ip_string la] ∧
      (handle_stream env).resolver_calls =
        [(extract_ip_string la, peer, tls.is_challenge)]) ∧
    (∀ s6 s7 port, extract_ip_string (.V6 ⟨0, 0, 0, 0, 0, 0xffff, s6, s7⟩ port) =
      Ipv4Addr.toString ⟨s6 / 256, s6 % 256, s7 / 256, s7 % 256⟩) := by
  obtain ⟨hpub, hcall⟩ := routing_trace_fields env tls la peer hp hl hsh hpe
  refine ⟨?_, ?_, ?_⟩
  · intro name hn _
    rw [hn] at hpub hcall
    exact ⟨hpub, hcall⟩
  · intro hn
    rw [hn] at hpub hcall
    exact ⟨hpub, hcall⟩
  · intro s6 s7 port
    simp [extract_ip_string, Ipv6Addr.to_ipv4]

/-- C6 witness: with SNI "a.example.com" the published routing key is that
hostname; the IPv4-mapped form of 203.0.113.5 renders as "203.0.113.5". -/
theorem routing_key_selection_witness :
    (handle_stream envOk).published = ["a.example.com"] ∧
    extract_ip_string (.V6 ⟨0, 0, 0, 0, 0, 0xffff, 0xcb00, 0x7105⟩ 443) = "203.0.113.5" :=
  ⟨((routing_key_selection envOk
      { hostname := some "a.example.com", is_challenge := false }
      (.V4 ⟨203, 0, 113, 5⟩ 443) (.V4 ⟨198, 51, 100, 7⟩ 55123)
      rfl rfl rfl rfl).1 "a.example.com" rfl (by decide)).1,
   ((routing_key_selection envOk
      { hostname := some "a.example.com", is_challenge := false }
      (.V4 ⟨203, 0, 113, 5⟩ 443) (.V4 ⟨198, 51, 100, 7⟩ 55123)
      rfl rfl rfl rfl).2.2 0xcb00 0x7105 443).trans (by decide)⟩

/-- C1: on every connection whose handoff completes (forwarding begins), the
bytes the admission flow wrote to the backend socket are exactly the optional
proxy-protocol header — present only when the backend descriptor configures a
version — immediately followed by the captured peek-buffer bytes, with no
alert bytes or anything else ever written. -/
theorem handoff_replays_exact_bytes (env : Env) (tls : Tls) (la peer : SocketAddr)
    (b : Backend) (ba : SocketAddr) (hd : Bytes)
    (hp : env.parse = .ok tls) (hl : env.local_addr = .ok la)
    (hsh : env.set_hostname_result = .ok ()) (hpe : env.peer_addr = .ok peer)
    (hr : env.resolve = .ok b) (hts : b.to_socket_addr = .ok ba)
    (hc : env.connect_result = .ok ())
    (hhd : headerResult env b la peer = .ok hd)
    (hw : env.write_all_result = .ok ()) (hi : env.into_inner_result = .ok ())
    (hrt : env.set_read_timeout_result = .ok ())
    (hwt : env.set_write_timeout_result = .ok ()) :
    (handle_stream env).forwarder_called = true ∧
    (handle_stream env).backend_bytes = hd ++ env.buf ∧
    (handle_stream env).alerts = [] ∧
    (b.proxy_protocol = none → hd = []) := by
  refine ⟨?_, ?_, ?_, fun hnone => ?_⟩
  · simp [handle_stream, hp, hl, hsh, hpe, hr, hts, hc, hhd, hw, hi, hrt, hwt]
  · simp [handle_stream, hp, hl, hsh, hpe, hr, hts, hc, hhd, hw, hi, hrt, hwt]
  · simp [handle_stream, hp, hl, hsh, hpe, hr, hts, hc, hhd, hw, hi, hrt, hwt]
  · simp [headerResult, hnone] at hhd
    exact hhd

/-- A backend descriptor that requests a proxy-protocol header. -/
def backendPp : Backend :=
  { backendPlain with proxy_protocol := some 2 }

def envOkPp : Env :=
  { envOk with resolve := .ok backendPp }

/-- C1 witness: without a proxy-protocol version the backend receives exactly
the captured bytes; with one it receives the header followed by them. -/
theorem handoff_replays_exact_bytes_witness :
    ((handle_stream envOk).forwarder_called = true ∧
     (handle_stream envOk).backend_bytes = [22, 3, 1, 0, 5] ∧
     (handle_stream envOk).alerts = []) ∧
    (handle_stream envOkPp).backend_bytes = [13, 10, 0, 13, 10] ++ [22, 3, 1, 0, 5] :=
  ⟨⟨(handoff_replays_exact_bytes envOk
      { hostname := some "a.example.com", is_challenge := false }
      (.V4 ⟨203, 0, 113, 5⟩ 443) (.V4 ⟨198, 51, 100, 7⟩ 55123)
      backendPlain (.V4 ⟨10, 0, 0, 2⟩ 8443) []
      rfl rfl rfl rfl rfl rfl rfl rfl rfl rfl rfl rfl).1,
    (handoff_replays_exact_bytes envOk
      { hostname := some "a.example.com", is_challenge := false }
      (.V4 ⟨203, 0, 113, 5⟩ 443) (.V4 ⟨198, 51, 100, 7⟩ 55123)
      backendPlain (.V4 ⟨10, 0, 0, 2⟩ 8443) []
      rfl rfl rfl rfl rfl rfl rfl rfl rfl rfl rfl rfl).2.1,
    (handoff_replays_exact_bytes envOk
      { hostname := some "a.example.com", is_challenge := false }
      (.V4 ⟨203, 0, 113, 5⟩ 443) (.V4 ⟨198, 51, 100, 7⟩ 55123)
      backendPlain (.V4 ⟨10, 0, 0, 2⟩ 8443) []
      rfl rfl rfl rfl rfl rfl rfl rfl rfl rfl rfl rfl).2.2.1⟩,
   (handoff_replays_exact_bytes envOkPp
      { hostname := some "a.example.com", is_challenge := false }
      (.V4 ⟨203, 0, 113, 5⟩ 443) (.V4 ⟨198, 51, 100, 7⟩ 55123)
      backendPp (.V4 ⟨10, 0, 0, 2⟩ 8443) [13, 10, 0, 13, 10]
      rfl rfl rfl rfl rfl rfl rfl rfl rfl rfl rfl rfl).2.1⟩

/-- An otherwise successful run whose client socket arrived with a read
timeout configured by the (out-of-scope) accept loop. -/
def envClientTo : Env :=
  { envOk with client_read_timeout := some 5 }

/-- C3 counterexample: after a fully successful handoff the client socket
still has the read timeout it arrived with — the admission flow clears
timeouts only on the backend socket, never on the client socket. -/
theorem client_timeout_not_cleared_cex :
    (handle_stream envClientTo).forwarder_called = true ∧
    (handle_stream envClientTo).client_timeouts = (some 5, none) ∧
    (handle_stream envClientTo).client_timeouts.1 ≠ none :=
  ⟨rfl, rfl, by decide⟩

/-- C3 amended: after a fully successful handoff the backend socket has no
read or write timeout; the client socket's timeouts are left exactly as the
connection arrived with them. -/
theorem handoff_clears_backend_timeouts_only (env : Env) (tls : Tls)
    (la peer : SocketAddr) (b : Backend) (ba : SocketAddr) (hd : Bytes)
    (hp : env.parse = .ok tls) (hl : env.local_addr = .ok la)
    (hsh : env.set_hostname_result = .ok ()) (hpe : env.peer_addr = .ok peer)
    (hr : env.resolve = .ok b) (hts : b.to_socket_addr = .ok ba)
    (hc : env.connect_result = .ok ())
    (hhd : headerResult env b la peer = .ok hd)
    (hw : env.write_all_result = .ok ()) (hi : env.into_inner_result = .ok ())
    (hrt : env.set_read_timeout_result = .ok ())
    (hwt : env.set_write_timeout_result = .ok ()) :
    (handle_stream env).forwarder_called = true ∧
    (handle_stream env).backend_timeouts = some (none, none) ∧
    (handle_stream env).client_timeouts =
      (env.client_read_timeout, env.client_write_timeout) := by
  refine ⟨?_, ?_, ?_⟩ <;>
    simp [handle_stream, hp, hl, hsh, hpe, hr, hts, hc, hhd, hw, hi, hrt, hwt]

/-- C3 witness: concrete fully successful run — backend timeouts cleared,
client timeouts as at entry. -/
theorem handoff_clears_backend_timeouts_only_witness :
    (handle_stream envOk).forwarder_called = true ∧
    (handle_stream envOk).backend_timeouts = some (none, none) ∧
    (handle_stream envOk).client_timeouts = (none, none) :=
  handoff_clears_backend_timeouts_only envOk
    { hostname := some "a.example.com", is_challenge := false }
    (.V4 ⟨203, 0, 113, 5⟩ 443) (.V4 ⟨198, 51, 100, 7⟩ 55123)
    backendPlain (.V4 ⟨10, 0, 0, 2⟩ 8443) []
    rfl rfl rfl rfl rfl rfl rfl rfl rfl rfl rfl rfl

/-- An otherwise successful run in which clearing the read timeout fails. -/
def envReadToFail : Env :=
  { envOk with set_read_timeout_result := .error (.sysErr "setsockopt failed") }

/-- C4: when clearing the read timeout during handoff fails, the code sends
the InternalError alert on the *backend* socket (`&mut conn`), not on the
client socket as the claim and the spec state, then aborts. -/
theorem timeout_clear_failure_alerts_backend_socket :
    (handle_stream envReadToFail).alerts = [(.backend, .InternalError)] ∧
    (handle_stream envReadToFail).alerts ≠ [(.client, .InternalError)] ∧
    (handle_stream envReadToFail).result =
      .error (.fail "Could not unset the read timeout on TCP stream: setsockopt failed") ∧
    (handle_stream envReadToFail).forwarder_called = false :=
  ⟨rfl, by decide, rfl, rfl⟩

/-- C8: when the TCP connect to the resolved backend fails, the connect was
attempted with the fixed 3-second timeout, an InternalError alert send is
attempted on the client socket, and the connection aborts with an error
naming the backend address and the underlying I/O error. -/
theorem connect_failure_alert (env : Env) (tls : Tls) (la peer : SocketAddr)
    (b : Backend) (ba : SocketAddr) (ce : Err)
    (hp : env.parse = .ok tls) (hl : env.local_addr = .ok la)
    (hsh : env.set_hostname_result = .ok ()) (hpe : env.peer_addr = .ok peer)
    (hr : env.resolve = .ok b) (hts : b.to_socket_addr = .ok ba)
    (hc : env.connect_result = .error ce) :
    (handle_stream env).connects = [(ba, 3)] ∧
    (handle_stream env).alerts = [(.client, .InternalError)] ∧
    (handle_stream env).forwarder_called = false ∧
    (env.alert_result = .ok () →
      (handle_stream env).result =
        .error (.fail ("Could not connect to backend '" ++ b.address ++ "': " ++ ce.str))) := by
  refine ⟨?_, ?_, ?_, fun ha => ?_⟩
  · simp [handle_stream, hp, hl, hsh, hpe, hr, hts, hc]
  · simp [handle_stream, hp, hl, hsh, hpe, hr, hts, hc]
  · simp [handle_stream, hp, hl, hsh, hpe, hr, hts, hc]
  · simp [handle_stream, hp, hl, hsh, hpe, hr, hts, hc, ha]

def envConnFail : Env :=
  { envOk with connect_result := .error (.sysErr "connection refused") }

/-- C8 witness: concrete refused connect — 3-second connect attempt recorded,
InternalError alert to the client, abort message naming the backend. -/
theorem connect_failure_alert_witness :
    (handle_stream envConnFail).connects = [(.V4 ⟨10, 0, 0, 2⟩ 8443, 3)] ∧
    (handle_stream envConnFail).alerts = [(.client, .InternalError)] ∧
    (handle_stream envConnFail).result =
      .error (.fail "Could not connect to backend '10.0.0.2:8443': connection refused") :=
  ⟨(connect_failure_alert envConnFail
      { hostname := some "a.example.com", is_challenge := false }
      (.V4 ⟨203, 0, 113, 5⟩ 443) (.V4 ⟨198, 51, 100, 7⟩ 55123)
      backendPlain (.V4 ⟨10, 0, 0, 2⟩ 8443) (.sysErr "connection refused")
      rfl rfl rfl rfl rfl rfl rfl).1,
   (connect_failure_alert envConnFail
      { hostname := some "a.example.com", is_challenge := false }
      (.V4 ⟨203, 0, 113, 5⟩ 443) (.V4 ⟨198, 51, 100, 7⟩ 55123)
      backendPlain (.V4 ⟨10, 0, 0, 2⟩ 8443) (.sysErr "connection refused")
      rfl rfl rfl rfl rfl rfl rfl).2.1,
   (connect_failure_alert envConnFail
      { hostname := some "a.example.com", is_challenge := false }
      (.V4 ⟨203, 0, 113, 5⟩ 443) (.V4 ⟨198, 51, 100, 7⟩ 55123)
      backendPlain (.V4 ⟨10, 0, 0, 2⟩ 8443) (.sysErr "connection refused")
      rfl rfl rfl rfl rfl rfl rfl).2.2.2 rfl⟩

/-- An otherwise successful run whose proxy-protocol header write fails. -/
def envHeaderFail : Env :=
  { envOk with
    resolve := .ok backendPp
    header_fn := fun _ _ _ => .error (.sysErr "header write failed") }

/-- C9 counterexample: a failed proxy-protocol header write aborts the
connection with *no* alert sent at all, contradicting the claim that every
handoff failure sends an InternalError alert to the client. -/
theorem header_write_failure_no_alert_cex :
    (handle_stream envHeaderFail).alerts = [] ∧
    (handle_stream envHeaderFail).result = .error (.sysErr "header write failed") ∧
    (handle_stream envHeaderFail).forwarder_called = false :=
  ⟨rfl, rfl, rfl⟩

/-- C9 amended: header-write, replay-write and flush errors abort the
connection with no alert; only a failure to clear the read or write timeout
triggers an InternalError alert, and that alert goes to the backend socket. -/
theorem handoff_failure_alert_policy (env : Env) (tls : Tls) (la peer : SocketAddr)
    (b : Backend) (ba : SocketAddr)
    (hp : env.parse = .ok tls) (hl : env.local_addr = .ok la)
    (hsh : env.set_hostname_result = .ok ()) (hpe : env.peer_addr = .ok peer)
    (hr : env.resolve = .ok b) (hts : b.to_socket_addr = .ok ba)
    (hc : env.connect_result = .ok ()) :
    (∀ he, headerResult env b la peer = .error he →
      (handle_stream env).alerts = [] ∧ (handle_stream env).result = .error he) ∧
    (∀ hd we, headerResult env b la peer = .ok hd → env.write_all_result = .error we →
      (handle_stream env).alerts = [] ∧ (handle_stream env).result = .error we) ∧
    (∀ hd ie, headerResult env b la peer = .ok hd → env.write_all_result = .ok () →
      env.into_inner_result = .error ie →
      (handle_stream env).alerts = [] ∧ (handle_stream env).result = .error ie) ∧
    (∀ hd e, headerResult env b la peer = .ok hd → env.write_all_result = .ok () →
      env.into_inner_result = .ok () → env.set_read_timeout_result = .error e →
      (handle_stream env).alerts = [(.backend, .InternalError)]) ∧
    (∀ hd e, headerResult env b la peer = .ok hd → env.write_all_result = .ok () →
      env.into_inner_result = .ok () → env.set_read_timeout_result = .ok () →
      env.set_write_timeout_result = .error e →
      (handle_stream env).alerts = [(.backend, .InternalError)]) := by
  refine ⟨fun he h1 => ?_, fun hd we h1 h2 => ?_, fun hd ie h1 h2 h3 => ?_,
    fun hd e h1 h2 h3 h4 => ?_, fun hd e h1 h2 h3 h4 h5 => ?_⟩ <;>
    simp [handle_stream, hp, hl, hsh, hpe, hr, hts, hc, h1] <;>
    simp_all

/-- C9 witness: concrete run in which clearing the write timeout fails — the
InternalError alert attempt targets the backend socket. -/
def envWriteToFail : Env :=
  { envOk with set_write_timeout_result := .error (.sysErr "setsockopt failed") }

theorem handoff_failure_alert_policy_witness :
    (handle_stream envWriteToFail).alerts = [(.backend, .InternalError)] :=
  (handoff_failure_alert_policy envWriteToFail
    { hostname := some "a.example.com", is_challenge := false }
    (.V4 ⟨203, 0, 113, 5⟩ 443) (.V4 ⟨198, 51, 100, 7⟩ 55123)
    backendPlain (.V4 ⟨10, 0, 0, 2⟩ 8443)
    rfl rfl rfl rfl rfl rfl rfl).2.2.2.2 [] (.sysErr "setsockopt failed")
    rfl rfl rfl rfl rfl

/-- A malformed (non-HTTP) first message whose rejection alert also fails. -/
def envParseAlertFail : Env :=
  { envOk with
    parse := .error "bad record"
    alert_result := .error (.sysErr "broken pipe") }

/-- C5 counterexample: when the best-effort alert send fails, the error
returned to the caller is the alert-send failure, not the parse failure that
triggered the rejection — the original error is suppressed. -/
theorem alert_failure_masks_original_cex :
    (handle_stream envParseAlertFail).alerts = [(.client, .InternalError)] ∧
    (handle_stream envParseAlertFail).result = .error (.sysErr "broken pipe") ∧
    (handle_stream envParseAlertFail).result ≠
      .error (.fail "Could not parse TLS message: bad record") :=
  ⟨rfl, rfl, by decide⟩

/-- C5 amended: on every rejecting transition that attempts an alert (parse
failure, classified routing failure, connect failure, timeout-clear failure),
a failing alert send makes the connection abort with the alert-send error,
which replaces the error that triggered the rejection. -/
theorem alert_failure_replaces_original_error (env : Env) (ae : Err)
    (ha : env.alert_result = .error ae) :
    (∀ e, env.parse = .error e → env.is_http = false →
      (handle_stream env).result = .error ae) ∧
    (∀ tls la peer, env.parse = .ok tls → env.local_addr = .ok la →
      env.set_hostname_result = .ok () → env.peer_addr = .ok peer →
      (env.resolve = .error (.config .HostnameNotFound) →
        (handle_stream env).result = .error ae) ∧
      (env.resolve = .error (.config .NoBackend) →
        (handle_stream env).result = .error ae) ∧
      (env.resolve = .error (.config .AccessDenied) →
        (handle_stream env).result = .error ae) ∧
      (∀ b ba, env.resolve = .ok b → b.to_socket_addr = .ok ba →
        (∀ ce, env.connect_result = .error ce →
          (handle_stream env).result = .error ae) ∧
        (∀ hd, env.connect_result = .ok () → headerResult env b la peer = .ok hd →
          env.write_all_result = .ok () → env.into_inner_result = .ok () →
          (∀ e, env.set_read_timeout_result = .error e →
            (handle_stream env).result = .error ae) ∧
          (∀ e, env.set_read_timeout_result = .ok () →
            env.set_write_timeout_result = .error e →
            (handle_stream env).result = .error ae)))) := by
  refine ⟨fun e h1 h2 => ?_, fun tls la peer hp hl hsh hpe => ?_⟩
  · simp [handle_stream, h1, h2, ha]
  · refine ⟨fun h => ?_, fun h => ?_, fun h => ?_, fun b ba hr hts => ?_⟩
    · simp [handle_stream, hp, hl, hsh, hpe, h, ha]
    · simp [handle_stream, hp, hl, hsh, hpe, h, ha]
    · simp [handle_stream, hp, hl, hsh, hpe, h, ha]
    · refine ⟨fun ce hc => ?_, fun hd hc hhd hw hi => ?_⟩
      · simp [handle_stream, hp, hl, hsh, hpe, hr, hts, hc, ha]
      · refine ⟨fun e h4 => ?_, fun e h4 h5 => ?_⟩
        · simp [handle_stream, hp, hl, hsh, hpe, hr, hts, hc, hhd, hw, hi, h4, ha]
        · simp [handle_stream, hp, hl, hsh, hpe, hr, hts, hc, hhd, hw, hi, h4, h5, ha]

/-- C5 witness: concrete run — parse fails, the alert write fails with
"broken pipe", and "broken pipe" is what the caller gets back. -/
theorem alert_failure_replaces_original_error_witness :
    (handle_stream envParseAlertFail).result = .error (.sysErr "broken pipe") :=
  (alert_failure_replaces_original_error envParseAlertFail
    (.sysErr "broken pipe") rfl).1 "bad record" rfl rfl

end Sniproxy
